import Mathlib

/-!
Verification of the mp709 USB relay controller (mp709.py).

The program is shallowly embedded: the pure decoding steps of
`mp709.getPort` and `mp709.getInfo` become functions on `List Nat`
byte buffers (a Python `IndexError` on a too-short buffer becomes
`none`), and the stateful construction / enumeration / control-pass
logic becomes trace-producing functions over a device model, where
each USB operation is recorded as an event.
-/

/-- A USB device descriptor together with the 8-byte feature-report
responses the device would return to the GET_INFO and GET_PORT
exchanges.  Mirrors what `mp709.__init__`, `getInfo` and `getPort`
read from the device. -/
structure UsbDevice where
  idVendor : Nat
  idProduct : Nat
  infoResponse : List Nat
  portResponse : List Nat
deriving DecidableEq

/-- The decoded result of `mp709.getInfo` (mp709.py lines 164-168). -/
structure DeviceInfo where
  family : Nat
  version : Nat
  id : Nat
deriving DecidableEq

/-- Decoding step of `mp709.getPort` (mp709.py lines 145-147):
`return (buffer[1] == buffer[2]) and (buffer[1] == portOn)` with
`portOn = 0x00`.  Python raises `IndexError` when the buffer is too
short; this is modelled by `none`. -/
def decodePortState (buffer : List Nat) : Option Bool :=
  match buffer[1]?, buffer[2]? with
  | some b1, some b2 => some (b1 == b2 && b1 == 0x00)
  | _, _ => none

/-- Decoding step of `mp709.getInfo` (mp709.py lines 164-168):
`family = buffer[1]; version = buffer[2] + buffer[3]*(1<<8);
id = buffer[7] + buffer[6]*(1<<8) + buffer[5]*(1<<16) + buffer[4]*(1<<24)`.
`IndexError` on a too-short buffer is modelled by `none`. -/
def decodeInfo (buffer : List Nat) : Option DeviceInfo :=
  match buffer[1]?, buffer[2]?, buffer[3]?, buffer[4]?, buffer[5]?, buffer[6]?, buffer[7]? with
  | some b1, some b2, some b3, some b4, some b5, some b6, some b7 =>
    some { family := b1,
           version := b2 + b3 * 256,
           id := b7 + b6 * 256 + b5 * 65536 + b4 * 16777216 }
  | _, _, _, _, _, _, _ => none

/-- A synthetic 8-byte GET_INFO response laid out per the documented
byte layout: family at byte 1, version little-endian in bytes 2-3,
id big-endian in bytes 4-7 (byte 0 is the report id, unused by the
decoder). -/
def encodeInfoResponse (f v i : Nat) : List Nat :=
  [0, f, v % 256, v / 256, i / 16777216, i / 65536 % 256, i / 256 % 256, i % 256]

/-- C1: For every 8-byte response buffer, the `getPort` decoding step
returns `true` iff byte 1 equals byte 2 and byte 1 equals 0x00, and
returns `false` for every other combination of byte 1 and byte 2. -/
theorem decodePortState_true_iff (b0 b1 b2 b3 b4 b5 b6 b7 : Nat) :
    (decodePortState [b0, b1, b2, b3, b4, b5, b6, b7] = some true ↔
      (b1 = b2 ∧ b1 = 0x00)) ∧
    (decodePortState [b0, b1, b2, b3, b4, b5, b6, b7] = some false ↔
      ¬ (b1 = b2 ∧ b1 = 0x00)) := by
  have h : decodePortState [b0, b1, b2, b3, b4, b5, b6, b7] =
      some (b1 == b2 && b1 == 0x00) := rfl
  rw [h]
  constructor
  · simp
  · simp [not_and_or]

/-- C2: for every family `f < 256`, version `v < 65536` and id
`i < 2^32`, building a synthetic response with the documented layout
and decoding it with the `getInfo` decoding step yields exactly
`{family := f, version := v, id := i}`. -/
theorem decodeInfo_roundTrip (f v i : Nat)
    (hf : f < 256) (hv : v < 65536) (hi : i < 4294967296) :
    decodeInfo (encodeInfoResponse f v i) = some ⟨f, v, i⟩ := by
  simp only [encodeInfoResponse, decodeInfo]
  simp only [List.getElem?_cons_succ, List.getElem?_cons_zero]
  simp only [Option.some.injEq, DeviceInfo.mk.injEq]
  refine ⟨trivial, by omega, by omega⟩

/-- C2 witness: the round trip at a concrete family, version and id. -/
theorem decodeInfo_roundTrip_witness :
    decodeInfo (encodeInfoResponse 7 30000 3758096384) = some ⟨7, 30000, 3758096384⟩ :=
  decodeInfo_roundTrip 7 30000 3758096384 (by decide) (by decide) (by decide)

/-- C6 counterexample: a 3-byte response buffer is not 8 bytes long,
yet the `getPort` decoding step does not fail: it decodes it to
`true`, a partial interpretation. -/
theorem decodePortState_short_buffer_decodes :
    ([0, 0, 0] : List Nat).length ≠ 8 ∧
    decodePortState [0, 0, 0] = some true := by
  constructor
  · decide
  · rfl

/-- C6 amended: the decoders never check for length exactly 8.  The
`getPort` decoding step succeeds on any buffer of length at least 3
(it reads only bytes 1 and 2) and fails (Python `IndexError`) on
shorter ones; the `getInfo` decoding step succeeds on any buffer of
length at least 8 (it reads bytes 1 through 7) and fails on shorter
ones, producing no partial interpretation only in those failure
cases. -/
theorem decode_succeeds_iff_length (buffer : List Nat) :
    ((decodePortState buffer).isSome ↔ 3 ≤ buffer.length) ∧
    ((decodeInfo buffer).isSome ↔ 8 ≤ buffer.length) := by
  constructor
  · unfold decodePortState
    rcases buffer with _ | ⟨a, _ | ⟨b, _ | ⟨c, l⟩⟩⟩ <;> simp
  · unfold decodeInfo
    rcases buffer with _ | ⟨a, _ | ⟨b, _ | ⟨c, _ | ⟨d, _ | ⟨e, _ | ⟨f, _ | ⟨g, _ | ⟨h, l⟩⟩⟩⟩⟩⟩⟩⟩ <;>
      simp

/-- One observable USB operation, tagged with the index of the device
it was issued to.  `openEv`/`closeEv` are the session open/release of
`mp709.open`/`mp709.close`; `getInfoEv`/`getPortEv`/`setPortEv` are
the corresponding protocol exchanges; `describeEv` is the status
record emitted for a relay by `log.info(r)` via `mp709.__str__`. -/
inductive Ev where
  | openEv (d : Nat)
  | closeEv (d : Nat)
  | getInfoEv (d : Nat)
  | getPortEv (d : Nat)
  | setPortEv (d : Nat) (st : Bool)
  | describeEv (d : Nat)
deriving DecidableEq

/-- The device index an event was issued to. -/
def Ev.relayIdx : Ev → Nat
  | .openEv d => d
  | .closeEv d => d
  | .getInfoEv d => d
  | .getPortEv d => d
  | .setPortEv d _ => d
  | .describeEv d => d

/-- Outcome of `mp709.__init__`: the client is retained (`ok`), the
constructor raised `ValueError` (`rejected`), or some other exception
escaped, e.g. `IndexError` from a malformed GET_INFO response
(`error`). -/
inductive InitRes where
  | ok
  | rejected
  | error
deriving DecidableEq

/-- `mp709.__init__(device, id)` (mp709.py lines 59-75): raise
`ValueError` when the vendor/product id differs from
(0x16C0, 0x05DF), before any session is opened; otherwise open the
session; when the filter id is non-zero perform `getInfo()` and, on
an id mismatch, close the session and raise `ValueError`.
`k` is the device index used to tag the trace events; the filter id
is an `Int` because `relaysControl.setId` stores `int(id)`, which may
be negative. -/
def mp709Init (k : Nat) (dev : UsbDevice) (idFilter : Int) : List Ev × InitRes :=
  if dev.idVendor ≠ 0x16C0 ∨ dev.idProduct ≠ 0x05DF then
    ([], .rejected)
  else if idFilter ≠ 0 then
    match decodeInfo dev.infoResponse with
    | none => ([Ev.openEv k, Ev.getInfoEv k], .error)
    | some info =>
      if (info.id : Int) ≠ idFilter then
        ([Ev.openEv k, Ev.getInfoEv k, Ev.closeEv k], .rejected)
      else
        ([Ev.openEv k, Ev.getInfoEv k], .ok)
  else
    ([Ev.openEv k], .ok)

/-- C4: with `targetFilterId = 0` an identity-matching device is
retained with no `getInfo` exchange; with `targetFilterId = k ≠ 0`
the constructor performs `getInfo` and retains the device exactly
when the decoded id equals the filter, and on a mismatch the session
is closed (the `closeEv` is in the trace) before the construction
fails with the rejection. -/
theorem mp709Init_filter (n : Nat) (dev : UsbDevice) (idFilter : Int)
    (info : DeviceInfo)
    (hV : dev.idVendor = 0x16C0) (hP : dev.idProduct = 0x05DF)
    (hI : decodeInfo dev.infoResponse = some info) :
    (idFilter = 0 → mp709Init n dev idFilter = ([Ev.openEv n], .ok)) ∧
    (idFilter ≠ 0 → (info.id : Int) = idFilter →
      mp709Init n dev idFilter = ([Ev.openEv n, Ev.getInfoEv n], .ok)) ∧
    (idFilter ≠ 0 → (info.id : Int) ≠ idFilter →
      mp709Init n dev idFilter =
        ([Ev.openEv n, Ev.getInfoEv n, Ev.closeEv n], .rejected)) := by
  refine ⟨?_, ?_, ?_⟩
  · intro h1
    simp [mp709Init, hV, hP, hI, h1]
  · intro h1 h2
    simp [mp709Init, hV, hP, hI, h1, h2]
  · intro h1 h2
    simp [mp709Init, hV, hP, hI, h1, h2]

/-- C4 witness: the three branches of the filter at concrete devices. -/
theorem mp709Init_filter_witness :
    mp709Init 0 ⟨0x16C0, 0x05DF, [0, 1, 0, 0, 0, 0, 0, 5], []⟩ 0 =
      ([Ev.openEv 0], .ok) ∧
    mp709Init 0 ⟨0x16C0, 0x05DF, [0, 1, 0, 0, 0, 0, 0, 5], []⟩ 5 =
      ([Ev.openEv 0, Ev.getInfoEv 0], .ok) ∧
    mp709Init 0 ⟨0x16C0, 0x05DF, [0, 1, 0, 0, 0, 0, 0, 5], []⟩ 7 =
      ([Ev.openEv 0, Ev.getInfoEv 0, Ev.closeEv 0], .rejected) := by
  have h0 := mp709Init_filter 0 ⟨0x16C0, 0x05DF, [0, 1, 0, 0, 0, 0, 0, 5], []⟩ 0
    ⟨1, 0, 5⟩ rfl rfl rfl
  have h5 := mp709Init_filter 0 ⟨0x16C0, 0x05DF, [0, 1, 0, 0, 0, 0, 0, 5], []⟩ 5
    ⟨1, 0, 5⟩ rfl rfl rfl
  have h7 := mp709Init_filter 0 ⟨0x16C0, 0x05DF, [0, 1, 0, 0, 0, 0, 0, 5], []⟩ 7
    ⟨1, 0, 5⟩ rfl rfl rfl
  exact ⟨h0.1 rfl, h5.2.1 (by decide) (by decide), h7.2.2 (by decide) (by decide)⟩

/-- C5: a device whose vendor or product id differs from
(0x16C0, 0x05DF) is rejected for every target filter id, with an
empty trace: no session is opened before (or after) the rejection. -/
theorem mp709Init_wrongIdentity (n : Nat) (dev : UsbDevice) (idFilter : Int)
    (h : dev.idVendor ≠ 0x16C0 ∨ dev.idProduct ≠ 0x05DF) :
    mp709Init n dev idFilter = ([], .rejected) := by
  simp [mp709Init, h]

/-- C5 witness: a device with the wrong product id is rejected with
no events. -/
theorem mp709Init_wrongIdentity_witness :
    mp709Init 0 ⟨0x16C0, 0x05DE, [], []⟩ 3 = ([], .rejected) :=
  mp709Init_wrongIdentity 0 ⟨0x16C0, 0x05DE, [], []⟩ 3 (by decide)

/-- C10: with a negative target filter id no device is ever retained:
the filter is non-zero so `getInfo` is consulted, and the decoded id
is a natural number, which can never equal a negative integer. -/
theorem mp709Init_negativeFilter (n : Nat) (dev : UsbDevice) (idFilter : Int)
    (h : idFilter < 0) :
    (mp709Init n dev idFilter).2 ≠ .ok := by
  unfold mp709Init
  by_cases hid : dev.idVendor ≠ 0x16C0 ∨ dev.idProduct ≠ 0x05DF
  · simp [hid]
  · have hne : idFilter ≠ 0 := by omega
    simp only [hid, if_false, hne, if_true, ite_not]
    match hdec : decodeInfo dev.infoResponse with
    | none => simp
    | some info =>
      have : (info.id : Int) ≠ idFilter := by
        have : (0 : Int) ≤ (info.id : Int) := Int.ofNat_nonneg info.id
        omega
      simp [this]

/-- C10 witness: an identity-matching device with decoded id 5 is not
retained under filter id -1. -/
theorem mp709Init_negativeFilter_witness :
    (mp709Init 0 ⟨0x16C0, 0x05DF, [0, 1, 0, 0, 0, 0, 0, 5], []⟩ (-1)).2 ≠ .ok :=
  mp709Init_negativeFilter 0 ⟨0x16C0, 0x05DF, [0, 1, 0, 0, 0, 0, 0, 5], []⟩ (-1)
    (by decide)

/-!
The `relayState` constants (mp709.py lines 43-47).  The source stores
them as plain integers; the constant the source calls `on` is named
`onState` here.
-/

namespace relayState

/-- `relayState.off` (mp709.py line 44). -/
def off : Nat := 0

/-- `relayState.on` (mp709.py line 45). -/
def onState : Nat := 1

/-- `relayState.noChange` (mp709.py line 46). -/
def noChange : Nat := 3

/-- `relayState.toggle` (mp709.py line 47). -/
def toggle : Nat := 4

end relayState

/-- The events of one `log.info(r)` status emission via
`mp709.__str__` (mp709.py lines 81-92): `getInfo()`, then
`getPort()`, then the status record itself.  The second component is
`false` when one of the decodes raises, in which case the status
record is not produced. -/
def describeEvs (k : Nat) (r : UsbDevice) : List Ev × Bool :=
  match decodeInfo r.infoResponse with
  | none => ([Ev.getInfoEv k], false)
  | some _ =>
    match decodePortState r.portResponse with
    | none => ([Ev.getInfoEv k, Ev.getPortEv k], false)
    | some _ => ([Ev.getInfoEv k, Ev.getPortEv k, Ev.describeEv k], true)

/-- One iteration of `relaysControl.controlRelays` (mp709.py lines
209-216) for the relay at index `k`: `setPort` for the on/off states,
`setPort(not getPort())` for toggle, nothing for any other state;
then the `log.info(r)` status emission.  The second component is
`false` when an exception escapes the iteration. -/
def controlOne (st : Nat) (k : Nat) (r : UsbDevice) : List Ev × Bool :=
  if st = relayState.onState ∨ st = relayState.off then
    (Ev.setPortEv k (decide (st = relayState.onState)) :: (describeEvs k r).1,
      (describeEvs k r).2)
  else if st = relayState.toggle then
    match decodePortState r.portResponse with
    | none => ([Ev.getPortEv k], false)
    | some b =>
      (Ev.getPortEv k :: Ev.setPortEv k (!b) :: (describeEvs k r).1,
        (describeEvs k r).2)
  else
    describeEvs k r

/-- `relaysControl.controlRelays` (mp709.py lines 209-216): process
the relays in order; an exception in one iteration aborts the loop
with the events issued so far. -/
def controlRelays (st : Nat) : List (Nat × UsbDevice) → List Ev × Bool
  | [] => ([], true)
  | (k, r) :: rs =>
    if (controlOne st k r).2 then
      ((controlOne st k r).1 ++ (controlRelays st rs).1, (controlRelays st rs).2)
    else ((controlOne st k r).1, false)

/-- The device-scanning loop of `relaysControl.enumerateRelays`
(mp709.py lines 176-187), over the flattened bus/device list starting
at device index `k`: construct `mp709(dev, id)` for each descriptor,
keep the successes, skip the `ValueError` rejections, and abort
(second component `none`) when another exception escapes a
construction. -/
def enumFrom (idFilter : Int) (k : Nat) :
    List UsbDevice → List Ev × Option (List (Nat × UsbDevice))
  | [] => ([], some [])
  | d :: ds =>
    let r1 := mp709Init k d idFilter
    let r2 := enumFrom idFilter (k + 1) ds
    if r1.2 = .error then (r1.1, none)
    else if r1.2 = .rejected then (r1.1 ++ r2.1, r2.2)
    else (r1.1 ++ r2.1, r2.2.map fun rl => (k, d) :: rl)

/-- Outcome of `relaysControl.enumerateRelays`: a non-empty relay
list, the `RuntimeWarning` raised when no relay was found, or a
propagated non-`ValueError` exception. -/
inductive EnumRes where
  | found (relays : List (Nat × UsbDevice))
  | noRelay
  | error
deriving DecidableEq

/-- `relaysControl.enumerateRelays` (mp709.py lines 176-191): scan
all devices, then raise `RuntimeWarning` when the relay list is
empty. -/
def enumerateRelays (idFilter : Int) (ds : List UsbDevice) : List Ev × EnumRes :=
  let r := enumFrom idFilter 0 ds
  match r.2 with
  | none => (r.1, .error)
  | some [] => (r.1, .noRelay)
  | some rs => (r.1, .found rs)

/-- Outcome of `relaysControl.main`. -/
inductive RunRes where
  | ok
  | noDeviceFound
  | error
deriving DecidableEq

/-- `relaysControl.main` (mp709.py lines 218-223): enumerate the
relays, then run the control pass over them; the `RuntimeWarning`
from an empty enumeration propagates as `noDeviceFound`. -/
def runMain (st : Nat) (idFilter : Int) (ds : List UsbDevice) : List Ev × RunRes :=
  let e := enumerateRelays idFilter ds
  match e.2 with
  | .error => (e.1, .error)
  | .noRelay => (e.1, .noDeviceFound)
  | .found rs =>
    let c := controlRelays st rs
    (e.1 ++ c.1, if c.2 then .ok else .error)

/-- `relaysControl.setState` lookup (mp709.py lines 193-204): the
string-to-state table; an unknown string raises `KeyError`, modelled
by `none`. -/
def stateOfString (s : String) : Option Nat :=
  if s = "on" then some relayState.onState
  else if s = "off" then some relayState.off
  else if s = "noChange" then some relayState.noChange
  else if s = "toggle" then some relayState.toggle
  else none

/-- Process exit of the command-line entry point. -/
inductive CliRes where
  | exitOk
  | failure
deriving DecidableEq

/-- The option-processing and dispatch of the module-level `main`
(mp709.py lines 246-280), restricted to the `--state`/`--id` options:
`setState` runs while the options are processed, so an unknown state
string fails (exit code 3) before `control.main()` — and hence any
device access — is reached. -/
def cliMain (stateArg : Option String) (idArg : Int) (ds : List UsbDevice) :
    List Ev × CliRes :=
  match stateArg with
  | none =>
    let r := runMain relayState.noChange idArg ds
    (r.1, if r.2 = .ok then .exitOk else .failure)
  | some s =>
    match stateOfString s with
    | none => ([], .failure)
    | some st =>
      let r := runMain st idArg ds
      (r.1, if r.2 = .ok then .exitOk else .failure)

/-- Is the event a `setPort` or `getPort` exchange? -/
def Ev.isPortTransfer : Ev → Bool
  | .setPortEv _ _ => true
  | .getPortEv _ => true
  | _ => false

/-- The constructor `mp709.__init__` issues no `setPort` or `getPort`
exchange. -/
theorem mp709Init_no_port (k : Nat) (d : UsbDevice) (f : Int) :
    ∀ e ∈ (mp709Init k d f).1, e.isPortTransfer = false := by
  unfold mp709Init
  split
  · simp
  · split
    · split
      · simp [Ev.isPortTransfer]
      · split <;> simp [Ev.isPortTransfer]
    · simp [Ev.isPortTransfer]

/-- The enumeration loop issues no `setPort` or `getPort` exchange. -/
theorem enumFrom_no_port (f : Int) (ds : List UsbDevice) : ∀ (k : Nat),
    ∀ e ∈ (enumFrom f k ds).1, e.isPortTransfer = false := by
  induction ds with
  | nil => intro k e he; simp [enumFrom] at he
  | cons d ds ih =>
    intro k e he
    rw [enumFrom] at he
    split at he
    · exact mp709Init_no_port k d f e he
    · split at he
      · replace he : e ∈ (mp709Init k d f).1 ++ (enumFrom f (k + 1) ds).1 := he
        rw [List.mem_append] at he
        rcases he with h | h
        · exact mp709Init_no_port k d f e h
        · exact ih (k + 1) e h
      · replace he : e ∈ (mp709Init k d f).1 ++ (enumFrom f (k + 1) ds).1 := he
        rw [List.mem_append] at he
        rcases he with h | h
        · exact mp709Init_no_port k d f e h
        · exact ih (k + 1) e h

/-- Inversion: a `noDeviceFound` outcome of `relaysControl.main`
comes from a completed scan that retained no relay, and the trace is
exactly the scan's trace. -/
theorem runMain_noDeviceFound_inv (st : Nat) (f : Int) (ds : List UsbDevice)
    (evs : List Ev)
    (h : runMain st f ds = (evs, .noDeviceFound)) :
    enumFrom f 0 ds = (evs, some []) := by
  rcases hE : enumFrom f 0 ds with ⟨evs0, rest⟩
  unfold runMain enumerateRelays at h
  rw [hE] at h
  rcases rest with _ | (_ | ⟨r, rs⟩)
  · simp at h
  · simp only at h
    rw [Prod.mk.injEq] at h
    rw [h.1]
  · simp only at h
    rcases hb : (controlRelays st (r :: rs)).2 <;> rw [hb] at h <;> simp at h

/-- C7: when `relaysControl.main` ends with the no-relay
`RuntimeWarning` (no descriptor identified successfully), its whole
trace contains no `setPort` and no `getPort` exchange. -/
theorem runMain_noDeviceFound_no_port (st : Nat) (f : Int)
    (ds : List UsbDevice) (evs : List Ev)
    (h : runMain st f ds = (evs, .noDeviceFound)) :
    ∀ e ∈ evs, e.isPortTransfer = false := by
  intro e he
  have hE := runMain_noDeviceFound_inv st f ds evs h
  have : evs = (enumFrom f 0 ds).1 := by rw [hE]
  exact enumFrom_no_port f ds 0 e (this ▸ he)

/-- C7 witness: a run over one identity-matching device whose id 5
does not match filter 9 retains nothing; the trace is the rejected
construction's open/getInfo/close and none of those three events is a
port transfer. -/
theorem runMain_noDeviceFound_no_port_witness :
    Ev.isPortTransfer (Ev.openEv 0) = false ∧
    Ev.isPortTransfer (Ev.getInfoEv 0) = false ∧
    Ev.isPortTransfer (Ev.closeEv 0) = false :=
  ⟨runMain_noDeviceFound_no_port relayState.toggle 9
    [⟨0x16C0, 0x05DF, [0, 1, 0, 0, 0, 0, 0, 5], [0, 0, 0, 0, 0, 0, 0, 0]⟩]
    [Ev.openEv 0, Ev.getInfoEv 0, Ev.closeEv 0] (by decide)
    (Ev.openEv 0) (by decide),
   runMain_noDeviceFound_no_port relayState.toggle 9
    [⟨0x16C0, 0x05DF, [0, 1, 0, 0, 0, 0, 0, 5], [0, 0, 0, 0, 0, 0, 0, 0]⟩]
    [Ev.openEv 0, Ev.getInfoEv 0, Ev.closeEv 0] (by decide)
    (Ev.getInfoEv 0) (by decide),
   runMain_noDeviceFound_no_port relayState.toggle 9
    [⟨0x16C0, 0x05DF, [0, 1, 0, 0, 0, 0, 0, 5], [0, 0, 0, 0, 0, 0, 0, 0]⟩]
    [Ev.openEv 0, Ev.getInfoEv 0, Ev.closeEv 0] (by decide)
    (Ev.closeEv 0) (by decide)⟩

/-- C8: an unsupported `--state` string makes the run fail (exit
code 3) with an empty trace: the `KeyError` from `setState` is raised
during option processing, before any device enumeration or device
I/O. -/
theorem cliMain_unknownState (s : String) (idArg : Int) (ds : List UsbDevice)
    (h : stateOfString s = none) :
    cliMain (some s) idArg ds = ([], .failure) := by
  simp [cliMain, h]

/-- C8 witness: the string "blink" is rejected with no device
events even when a live device is attached. -/
theorem cliMain_unknownState_witness :
    cliMain (some "blink") 0
      [⟨0x16C0, 0x05DF, [0, 1, 0, 0, 0, 0, 0, 5], [0, 0, 0, 0, 0, 0, 0, 0]⟩] =
      ([], .failure) :=
  cliMain_unknownState "blink" 0
    [⟨0x16C0, 0x05DF, [0, 1, 0, 0, 0, 0, 0, 5], [0, 0, 0, 0, 0, 0, 0, 0]⟩]
    (by decide)

/-- C9: with one identity-matching device and the `noChange` state,
`relaysControl.main` issues no `setPort` at all and exactly one
status record for the client, emitted after the (empty) per-client
action: the trace is the construction's open followed by the status
emission's getInfo/getPort/describe. -/
theorem runMain_noChange_single (d : UsbDevice) (info : DeviceInfo) (b : Bool)
    (hV : d.idVendor = 0x16C0) (hP : d.idProduct = 0x05DF)
    (hI : decodeInfo d.infoResponse = some info)
    (hB : decodePortState d.portResponse = some b) :
    runMain relayState.noChange 0 [d] =
      ([Ev.openEv 0, Ev.getInfoEv 0, Ev.getPortEv 0, Ev.describeEv 0], .ok) ∧
    (∀ j c, Ev.setPortEv j c ∉
      [Ev.openEv 0, Ev.getInfoEv 0, Ev.getPortEv 0, Ev.describeEv 0]) ∧
    [Ev.openEv 0, Ev.getInfoEv 0, Ev.getPortEv 0,
      Ev.describeEv 0].count (Ev.describeEv 0) = 1 := by
  refine ⟨?_, by simp, by decide⟩
  have h1 : mp709Init 0 d 0 = ([Ev.openEv 0], .ok) := by
    simp [mp709Init, hV, hP]
  have h2 : enumFrom 0 0 [d] = ([Ev.openEv 0], some [(0, d)]) := by
    simp [enumFrom, h1]
  have h3 : describeEvs 0 d =
      ([Ev.getInfoEv 0, Ev.getPortEv 0, Ev.describeEv 0], true) := by
    simp [describeEvs, hI, hB]
  have h4 : controlOne relayState.noChange 0 d =
      ([Ev.getInfoEv 0, Ev.getPortEv 0, Ev.describeEv 0], true) := by
    simp [controlOne, relayState.noChange, relayState.onState, relayState.off,
      relayState.toggle, h3]
  simp [runMain, enumerateRelays, h2, controlRelays, h4]

/-- C9 witness: the single-client `noChange` pass at a concrete
device. -/
theorem runMain_noChange_single_witness :
    runMain relayState.noChange 0
      [⟨0x16C0, 0x05DF, [0, 1, 0, 0, 0, 0, 0, 5], [0, 0, 0, 0, 0, 0, 0, 0]⟩] =
      ([Ev.openEv 0, Ev.getInfoEv 0, Ev.getPortEv 0, Ev.describeEv 0], .ok) ∧
    (∀ j c, Ev.setPortEv j c ∉
      [Ev.openEv 0, Ev.getInfoEv 0, Ev.getPortEv 0, Ev.describeEv 0]) ∧
    [Ev.openEv 0, Ev.getInfoEv 0, Ev.getPortEv 0,
      Ev.describeEv 0].count (Ev.describeEv 0) = 1 :=
  runMain_noChange_single
    ⟨0x16C0, 0x05DF, [0, 1, 0, 0, 0, 0, 0, 5], [0, 0, 0, 0, 0, 0, 0, 0]⟩
    ⟨1, 0, 5⟩ true rfl rfl rfl rfl

/-- Every event of one status emission is tagged with that relay's
index. -/
theorem relayIdx_describeEvs (k : Nat) (r : UsbDevice) :
    ∀ e ∈ (describeEvs k r).1, e.relayIdx = k := by
  unfold describeEvs
  split
  · simp [Ev.relayIdx]
  · split <;> simp [Ev.relayIdx]

/-- Every event of one control-pass iteration is tagged with that
relay's index. -/
theorem relayIdx_controlOne (st k : Nat) (r : UsbDevice) :
    ∀ e ∈ (controlOne st k r).1, e.relayIdx = k := by
  unfold controlOne
  split
  · intro e he
    replace he : e ∈ Ev.setPortEv k (decide (st = relayState.onState)) ::
        (describeEvs k r).1 := he
    rcases List.mem_cons.mp he with rfl | he
    · rfl
    · exact relayIdx_describeEvs k r e he
  · split
    · split
      · simp [Ev.relayIdx]
      · intro e he
        replace he : e ∈ Ev.getPortEv k :: Ev.setPortEv k _ ::
            (describeEvs k r).1 := he
        rcases List.mem_cons.mp he with rfl | he
        · rfl
        · rcases List.mem_cons.mp he with rfl | he
          · rfl
          · exact relayIdx_describeEvs k r e he
    · exact relayIdx_describeEvs k r

/-- Every event of a control pass is tagged with the index of one of
the processed relays. -/
theorem relayIdx_controlRelays (st : Nat) (rs : List (Nat × UsbDevice)) :
    ∀ e ∈ (controlRelays st rs).1, e.relayIdx ∈ rs.map Prod.fst := by
  induction rs with
  | nil => simp [controlRelays]
  | cons p rest ih =>
    rcases p with ⟨k, d⟩
    intro e he
    rw [controlRelays] at he
    split at he
    · replace he : e ∈ (controlOne st k d).1 ++ (controlRelays st rest).1 := he
      rcases List.mem_append.mp he with h | h
      · simp [relayIdx_controlOne st k d e h]
      · simp only [List.map_cons]
        exact List.mem_cons_of_mem _ (ih e h)
    · replace he : e ∈ (controlOne st k d).1 := he
      simp [relayIdx_controlOne st k d e he]

/-- A status emission contains no `setPort` event. -/
theorem describeEvs_count_setPort (k i : Nat) (r : UsbDevice) (c : Bool) :
    (describeEvs k r).1.count (Ev.setPortEv i c) = 0 := by
  unfold describeEvs
  split
  · simp
  · split <;> simp

/-- C3: in a completed toggle pass over relays with pairwise distinct
indices, a client whose decoded port state is `b` receives exactly
one `setPort (!b)` and no `setPort b`: a client reading `true` gets
exactly one `setPort false` and no `setPort true`, and symmetrically
for `false`. -/
theorem controlRelays_toggle_counts (rs : List (Nat × UsbDevice))
    (evs : List Ev) (i : Nat) (r : UsbDevice) (b : Bool)
    (hrun : controlRelays relayState.toggle rs = (evs, true))
    (hmem : (i, r) ∈ rs)
    (hnodup : (rs.map Prod.fst).Nodup)
    (hport : decodePortState r.portResponse = some b) :
    evs.count (Ev.setPortEv i (!b)) = 1 ∧ evs.count (Ev.setPortEv i b) = 0 := by
  induction rs generalizing evs with
  | nil => simp at hmem
  | cons p rest ih =>
    rcases p with ⟨k, d⟩
    rw [controlRelays] at hrun
    rcases h1 : controlOne relayState.toggle k d with ⟨evs1, ok1⟩
    rcases h2 : controlRelays relayState.toggle rest with ⟨evs2, ok2⟩
    rw [h1, h2] at hrun
    simp only [List.map_cons, List.nodup_cons] at hnodup
    cases ok1
    · simp at hrun
    · simp only [if_true, Prod.mk.injEq] at hrun
      obtain ⟨hevs, hok2⟩ := hrun
      subst hevs
      subst hok2
      rcases List.mem_cons.mp hmem with heq | hmem'
      · have hik : i = k := congrArg Prod.fst heq
        have hrd : r = d := congrArg Prod.snd heq
        subst hik
        subst hrd
        simp only [controlOne, relayState.toggle, relayState.onState,
          relayState.off, hport] at h1
        norm_num at h1
        obtain ⟨h1a, _⟩ := h1
        have hnot2 : ∀ c, Ev.setPortEv i c ∉ evs2 := by
          intro c hc
          have hidx := relayIdx_controlRelays relayState.toggle rest
            (Ev.setPortEv i c) (by rw [h2]; exact hc)
          exact hnodup.1 (by simpa [Ev.relayIdx] using hidx)
        rw [List.count_append, List.count_append]
        rw [List.count_eq_zero.mpr (hnot2 (!b)), List.count_eq_zero.mpr (hnot2 b)]
        rw [← h1a]
        cases b <;>
          simp [List.count_cons, describeEvs_count_setPort]
      · have himem : i ∈ rest.map Prod.fst :=
          List.mem_map.mpr ⟨(i, r), hmem', rfl⟩
        have hik : i ≠ k := by
          intro h
          exact hnodup.1 (h ▸ himem)
        have hnot1 : ∀ c, Ev.setPortEv i c ∉ evs1 := by
          intro c hc
          have hidx := relayIdx_controlOne relayState.toggle k d
            (Ev.setPortEv i c) (by rw [h1]; exact hc)
          exact hik (by simpa [Ev.relayIdx] using hidx)
        have hrest := ih evs2 h2 hmem' hnodup.2
        rw [List.count_append, List.count_append]
        rw [List.count_eq_zero.mpr (hnot1 (!b)), List.count_eq_zero.mpr (hnot1 b)]
        simpa using hrest

/-- C3 witness: a one-relay toggle pass over a relay reading `true`
issues exactly one `setPort false` and no `setPort true`. -/
theorem controlRelays_toggle_counts_witness :
    [Ev.getPortEv 0, Ev.setPortEv 0 false, Ev.getInfoEv 0, Ev.getPortEv 0,
      Ev.describeEv 0].count (Ev.setPortEv 0 false) = 1 ∧
    [Ev.getPortEv 0, Ev.setPortEv 0 false, Ev.getInfoEv 0, Ev.getPortEv 0,
      Ev.describeEv 0].count (Ev.setPortEv 0 true) = 0 :=
  controlRelays_toggle_counts
    [(0, ⟨0x16C0, 0x05DF, [0, 1, 0, 0, 0, 0, 0, 5], [0, 0, 0, 0, 0, 0, 0, 0]⟩)]
    [Ev.getPortEv 0, Ev.setPortEv 0 false, Ev.getInfoEv 0, Ev.getPortEv 0,
      Ev.describeEv 0]
    0 ⟨0x16C0, 0x05DF, [0, 1, 0, 0, 0, 0, 0, 5], [0, 0, 0, 0, 0, 0, 0, 0]⟩ true
    (by decide) (by decide) (by decide) (by decide)
